import Mathlib

/-!
# Account service: profile sessions and the application account manager

A shallow embedding of `src/core/hle/service/acc/acc.cpp`.

* Handlers are functions from the session state (and the collaborators they
  read) to the response they build; `LoadImage`, which advances the position
  of the session's file handle, also returns the new session state.
* Unsigned machine integers are natural numbers, reduced modulo `2 ^ 32`
  wherever the source converts to `u32`.
* Bytes, characters of a path and buffers are lists of natural numbers.
-/

namespace Service.Account

/-! ## Constants and machine arithmetic -/

/-- The constant of line 23: `constexpr u32 MAX_JPEG_IMAGE_SIZE = 0x20000;`. -/
def MAX_JPEG_IMAGE_SIZE : Nat := 0x20000

/-- Conversion of an unsigned value to `u32`. -/
def to_u32 (v : Nat) : Nat := v % 2 ^ 32

/-- The call `std::min<u32>(a, b)`: the template argument is given explicitly, so both
arguments are converted to `u32` before they are compared. -/
def min_u32 (a b : Nat) : Nat := min (to_u32 a) (to_u32 b)

/-- The bytes of an ASCII string literal. -/
def ascii (s : String) : List Nat := s.toList.map Char.toNat

/-! ## Collaborators that the file only uses -/

/-- Modelled from the spec: `UUID` (profile_manager.h) is missing from the sources; the
spec calls it an opaque 128-bit identifier that can be compared for equality. -/
structure UUID where
  uuid : Nat
  deriving DecidableEq, Repr

/-- Modelled from the spec: `ResultCode` (core/hle/result.h) is missing from the sources;
a status is a raw 32-bit word, and the spec separates status-success from the
"generic non-zero failure status". -/
structure ResultCode where
  raw : Nat
  deriving DecidableEq, Repr

/-- Modelled from the spec: `RESULT_SUCCESS` (core/hle/result.h) is missing from the
sources; it is the status whose raw word is zero. -/
def RESULT_SUCCESS : ResultCode := ⟨0⟩

/-- The expression `ResultCode(-1)` of lines 77 and 91: the integer is converted to the
raw `u32` word. -/
def ResultCode.of_int (v : Int) : ResultCode := ⟨(v % 2 ^ 32).toNat⟩

/-- Modelled from the spec: `ProfileBase` (profile_manager.h) is missing from the sources;
the spec gives it the user id, a timestamp and the fixed-length username buffer. -/
structure ProfileBase where
  user_uuid : UUID
  timestamp : Nat
  username : List Nat
  deriving DecidableEq, Repr

/-- Modelled from the spec: a record of the profile store (profile_manager.h is missing
from the sources): the key, the fields of the base profile and the extra data block. -/
structure ProfileInfo where
  user_uuid : UUID
  username : List Nat
  creation_time : Nat
  data : List Nat
  deriving DecidableEq, Repr

/-- Modelled from the spec: `ProfileManager` (profile_manager.cpp) is missing from the
sources; the spec describes it as user records keyed by the user id. -/
structure ProfileManager where
  profiles : List ProfileInfo
  deriving DecidableEq, Repr

/-- Modelled from the spec: `ProfileManager::UserExists`, the existence check of the
store: some record is keyed by the id. -/
def ProfileManager.UserExists (pm : ProfileManager) (uuid : UUID) : Bool :=
  pm.profiles.any (fun p => p.user_uuid == uuid)

/-- Modelled from the spec: `ProfileManager::GetProfileBase`, the base-profile lookup of
the store. The source receives a `bool` and an out-parameter; here `some profile` is
`true` with the out-parameter filled from the record keyed by the id, `none` is `false`. -/
def ProfileManager.GetProfileBase (pm : ProfileManager) (uuid : UUID) : Option ProfileBase :=
  (pm.profiles.find? (fun p => p.user_uuid == uuid)).map
    (fun p => { user_uuid := p.user_uuid, timestamp := p.creation_time, username := p.username })

/-- Modelled from the spec: `ProfileManager::GetProfileBaseAndData`, the lookup of the base
profile together with the extra data; the data block is exactly `max_data` bytes,
zero-padded if the store holds less. -/
def ProfileManager.GetProfileBaseAndData (pm : ProfileManager) (max_data : Nat) (uuid : UUID) :
    Option (ProfileBase × List Nat) :=
  (pm.profiles.find? (fun p => p.user_uuid == uuid)).map
    (fun p => ({ user_uuid := p.user_uuid, timestamp := p.creation_time, username := p.username },
               (p.data ++ List.replicate max_data 0).take max_data))

/-- Modelled from the spec: `Common::StringFromFixedZeroTerminatedBuffer` (string_util.cpp)
is missing from the sources; it yields the zero-terminated content of the buffer. -/
def StringFromFixedZeroTerminatedBuffer (buffer : List Nat) (max_len : Nat) : List Nat :=
  (buffer.take max_len).takeWhile (fun c => c != 0)

/-- The files that can be opened for reading: a path is mapped to the bytes of its file,
or to `none` when the open fails. -/
abbrev FileSystem := List Nat → Option (List Nat)

/-- Modelled from the spec: `FileUtil::IOFile` (common/file_util.h) is missing from the
sources. A handle keeps the stream it opened (`none` when the open failed) and the
position of the next read. -/
structure IOFile where
  m_file : Option (List Nat)
  pos : Nat
  deriving DecidableEq, Repr

/-- Modelled from the spec: the constructor `IOFile(path, "rb")`; the object exists whether
or not the open succeeds. -/
def IOFile.construct (fs : FileSystem) (path : List Nat) : IOFile :=
  { m_file := fs path, pos := 0 }

/-- Modelled from the spec: `IOFile::GetSize`, the actual size of the file as a `u64`, and
zero for a handle that is not open. -/
def IOFile.GetSize (f : IOFile) : Nat :=
  match f.m_file with
  | some bytes => bytes.length
  | none => 0

/-- Modelled from the spec: `IOFile::ReadBytes(data, length)`: a stream read of up to
`length` bytes at the position of the handle into the front of `data`; the position moves
past the bytes that were read. A handle that is not open reads nothing. -/
def IOFile.ReadBytes (f : IOFile) (data : List Nat) (length : Nat) : IOFile × List Nat :=
  match f.m_file with
  | none => (f, data)
  | some bytes =>
    let got := (bytes.drop f.pos).take length
    ({ f with pos := f.pos + got.length }, got ++ data.drop got.length)

/-! ## Responses -/

/-- A value pushed through `IPC::ResponseBuilder`. -/
inductive Param where
  | result (rc : ResultCode)
  | u32 (v : Nat)
  | u64 (v : Nat)
  | boolean (b : Bool)
  | profile_base (p : ProfileBase)
  deriving DecidableEq, Repr

/-- What a handler leaves in the `HLERequestContext`: the size given to the
`ResponseBuilder`, the values pushed in order, and the bytes given to `ctx.WriteBuffer`
(`none` when the handler never calls it). -/
structure Response where
  normal_params_size : Nat
  params : List Param
  buffer : Option (List Nat)
  deriving DecidableEq, Repr

/-- The status of a response: the `ResultCode` pushed first. -/
def Response.status (r : Response) : Option ResultCode :=
  match r.params with
  | Param.result rc :: _ => some rc
  | _ => none

/-! ## `GetImagePath` and `IProfile` -/

/-- Modelled from the spec: the constant `DIR_SEP` (common/common_paths.h) is missing from
the sources; the spec derives the path as `<config-root>/users/<username>.jpg`. -/
def DIR_SEP : List Nat := ascii "/"

/-- The function of lines 36-39; `config_dir` is `FileUtil::GetUserPath(ConfigDir)`. -/
def GetImagePath (config_dir : List Nat) (username : List Nat) : List Nat :=
  config_dir ++ ascii "users" ++ DIR_SEP ++ username ++ ascii ".jpg"

/-- The members of `IProfile` that change or are read by the handlers: `user_id` and the
`std::unique_ptr<FileUtil::IOFile> image`, where `none` is `nullptr`. -/
structure IProfile where
  user_id : UUID
  image : Option IOFile
  deriving DecidableEq, Repr

/-- The constructor of lines 43-61. -/
def IProfile.construct (user_id : UUID) (profile_manager : ProfileManager)
    (config_dir : List Nat) (fs : FileSystem) : IProfile :=
  match profile_manager.GetProfileBase user_id with
  | some profile_base =>
    { user_id := user_id
      image := some (IOFile.construct fs
        (GetImagePath config_dir
          (StringFromFixedZeroTerminatedBuffer profile_base.username profile_base.username.length))) }
  | none => { user_id := user_id, image := none }

/-- The handler of lines 64-79; `max_data` is the constant `MAX_DATA` of profile_manager.h. -/
def IProfile.Get (self : IProfile) (profile_manager : ProfileManager) (max_data : Nat) :
    Response :=
  match profile_manager.GetProfileBaseAndData max_data self.user_id with
  | some (profile_base, data) =>
    { normal_params_size := 16
      params := [Param.result RESULT_SUCCESS, Param.profile_base profile_base]
      buffer := some data }
  | none =>
    { normal_params_size := 2
      params := [Param.result (ResultCode.of_int (-1))]
      buffer := none }

/-- The handler of lines 81-93. -/
def IProfile.GetBase (self : IProfile) (profile_manager : ProfileManager) : Response :=
  match profile_manager.GetProfileBase self.user_id with
  | some profile_base =>
    { normal_params_size := 16
      params := [Param.result RESULT_SUCCESS, Param.profile_base profile_base]
      buffer := none }
  | none =>
    { normal_params_size := 2
      params := [Param.result (ResultCode.of_int (-1))]
      buffer := none }

/-- The constant `backup_jpeg_size` of lines 99 and 129. -/
def backup_jpeg_size : Nat := 107

/-- The array `backup_jpeg` of lines 100-109. -/
def backup_jpeg : List Nat := [
    0xff, 0xd8, 0xff, 0xdb, 0x00, 0x43, 0x00, 0x03, 0x02, 0x02, 0x02, 0x02, 0x02, 0x03,
    0x02, 0x02, 0x02, 0x03, 0x03, 0x03, 0x03, 0x04, 0x06, 0x04, 0x04, 0x04, 0x04, 0x04,
    0x08, 0x06, 0x06, 0x05, 0x06, 0x09, 0x08, 0x0a, 0x0a, 0x09, 0x08, 0x09, 0x09, 0x0a,
    0x0c, 0x0f, 0x0c, 0x0a, 0x0b, 0x0e, 0x0b, 0x09, 0x09, 0x0d, 0x11, 0x0d, 0x0e, 0x0f,
    0x10, 0x10, 0x11, 0x10, 0x0a, 0x0c, 0x12, 0x13, 0x12, 0x10, 0x13, 0x0f, 0x10, 0x10,
    0x10, 0xff, 0xc9, 0x00, 0x0b, 0x08, 0x00, 0x01, 0x00, 0x01, 0x01, 0x01, 0x11, 0x00,
    0xff, 0xcc, 0x00, 0x06, 0x00, 0x10, 0x10, 0x05, 0xff, 0xda, 0x00, 0x08, 0x01, 0x01,
    0x00, 0x00, 0x3f, 0x00, 0xd2, 0xcf, 0x20, 0xff, 0xd9]

/-- The handler of lines 95-125. Reading moves the position of the handle, so the session
after the call is returned with the response. -/
def IProfile.LoadImage (self : IProfile) : IProfile × Response :=
  match self.image with
  | none =>
    (self,
     { normal_params_size := 3
       params := [Param.result RESULT_SUCCESS, Param.u32 (to_u32 backup_jpeg_size)]
       buffer := some backup_jpeg })
  | some image =>
    let size := min_u32 image.GetSize MAX_JPEG_IMAGE_SIZE
    let buffer := List.replicate size 0
    let read := image.ReadBytes buffer buffer.length
    ({ self with image := some read.1 },
     { normal_params_size := 3
       params := [Param.result RESULT_SUCCESS, Param.u32 (to_u32 read.2.length)]
       buffer := some (read.2.take read.2.length) })

/-- The handler of lines 127-137. -/
def IProfile.GetImageSize (self : IProfile) : Response :=
  match self.image with
  | none =>
    { normal_params_size := 3
      params := [Param.result RESULT_SUCCESS, Param.u32 (to_u32 backup_jpeg_size)]
      buffer := none }
  | some image =>
    { normal_params_size := 3
      params := [Param.result RESULT_SUCCESS,
                 Param.u32 (to_u32 (min_u32 image.GetSize MAX_JPEG_IMAGE_SIZE))]
      buffer := none }

/-- The handlers bound in the table of lines 45-50. -/
inductive IProfile.Handler where
  | Get
  | GetBase
  | GetImageSize
  | LoadImage
  deriving DecidableEq, Repr

/-- An entry of a `FunctionInfo` table: the command id, the handler (`none` is `nullptr`)
and the name. -/
structure FunctionInfo (H : Type) where
  expected_header : Nat
  handler_callback : Option H
  name : String
  deriving DecidableEq, Repr

/-- The table of lines 45-50. -/
def IProfile.functions : List (FunctionInfo IProfile.Handler) := [
  ⟨0, some IProfile.Handler.Get, "Get"⟩,
  ⟨1, some IProfile.Handler.GetBase, "GetBase"⟩,
  ⟨10, some IProfile.Handler.GetImageSize, "GetImageSize"⟩,
  ⟨11, some IProfile.Handler.LoadImage, "LoadImage"⟩]

/-- One call of a handler on a session: the session after the call and the response. The
store is the one the session refers to, in its state at the time of the call. -/
def IProfile.call (self : IProfile) (h : IProfile.Handler) (profile_manager : ProfileManager)
    (max_data : Nat) : IProfile × Response :=
  match h with
  | IProfile.Handler.Get => (self, self.Get profile_manager max_data)
  | IProfile.Handler.GetBase => (self, self.GetBase profile_manager)
  | IProfile.Handler.GetImageSize => (self, self.GetImageSize)
  | IProfile.Handler.LoadImage => self.LoadImage

/-- The session after a sequence of calls, each with the state of the store at its time. -/
def IProfile.calls (self : IProfile) (max_data : Nat) :
    List (IProfile.Handler × ProfileManager) → IProfile
  | [] => self
  | (h, pm) :: rest => IProfile.calls (self.call h pm max_data).1 max_data rest

/-- The entry point of lines 214-221: the response and the session it constructs. The user
id is the one popped from the request. -/
def GetProfile (user_id : UUID) (profile_manager : ProfileManager) (config_dir : List Nat)
    (fs : FileSystem) : Response × IProfile :=
  ({ normal_params_size := 2, params := [Param.result RESULT_SUCCESS], buffer := none },
   IProfile.construct user_id profile_manager config_dir fs)

/-! ## `IManagerForApplication` -/

/-- The handlers bound in the table of lines 147-155. -/
inductive IManagerForApplication.Handler where
  | CheckAvailability
  | GetAccountId
  deriving DecidableEq, Repr

/-- The table of lines 147-155. -/
def IManagerForApplication.functions : List (FunctionInfo IManagerForApplication.Handler) := [
  ⟨0, some IManagerForApplication.Handler.CheckAvailability, "CheckAvailability"⟩,
  ⟨1, some IManagerForApplication.Handler.GetAccountId, "GetAccountId"⟩,
  ⟨2, none, "EnsureIdTokenCacheAsync"⟩,
  ⟨3, none, "LoadIdTokenCache"⟩,
  ⟨130, none, "GetNintendoAccountUserResourceCacheForApplication"⟩,
  ⟨150, none, "CreateAuthorizationRequest"⟩,
  ⟨160, none, "StoreOpenContext"⟩]

/-- The handler of lines 160-165; `request` is the content of the context it receives. -/
def IManagerForApplication.CheckAvailability (request : List Nat) : Response :=
  let _ := request
  { normal_params_size := 3
    params := [Param.result RESULT_SUCCESS, Param.boolean false]
    buffer := none }

/-- The handler of lines 167-173; `request` is the content of the context it receives. -/
def IManagerForApplication.GetAccountId (request : List Nat) : Response :=
  let _ := request
  { normal_params_size := 4
    params := [Param.result RESULT_SUCCESS, Param.u64 (1 % 2 ^ 64)]
    buffer := none }

/-- The response a bound handler of `IManagerForApplication` builds. -/
def IManagerForApplication.run (h : IManagerForApplication.Handler) (request : List Nat) :
    Response :=
  match h with
  | IManagerForApplication.Handler.CheckAvailability =>
    IManagerForApplication.CheckAvailability request
  | IManagerForApplication.Handler.GetAccountId =>
    IManagerForApplication.GetAccountId request

/-! ## The dispatcher -/

/-- Modelled from the spec: the reply of the command dispatcher (`ServiceFramework`,
core/hle/service/service.cpp, is missing from the sources): either the response of the
handler that ran, or the dispatcher's own "unimplemented command" reply. -/
inductive Reply where
  | handled (r : Response)
  | unimplemented
  deriving DecidableEq, Repr

/-- Modelled from the spec: whether a reply of the dispatcher carries status-success; the
"unimplemented" status is distinguishable from it. -/
def Reply.is_success : Reply → Bool
  | Reply.handled r => r.status == some RESULT_SUCCESS
  | Reply.unimplemented => false

/-- Modelled from the spec: the lookup of the dispatcher (`ServiceFramework` is missing
from the sources): the handler bound to a command id, `none` when the id is not listed
or is listed with no handler. -/
def bound_handler {H : Type} (functions : List (FunctionInfo H)) (id : Nat) : Option H :=
  match functions.find? (fun f => f.expected_header == id) with
  | some f => f.handler_callback
  | none => none

/-- Modelled from the spec: dispatch of a command id on `IManagerForApplication`
(`ServiceFramework` is missing from the sources): the handlers that were invoked and the
reply. A bound handler is invoked exactly once; an id with no bound handler yields the
"unimplemented command" reply. -/
def IManagerForApplication.InvokeRequest (id : Nat) (request : List Nat) :
    List IManagerForApplication.Handler × Reply :=
  match bound_handler IManagerForApplication.functions id with
  | some h => ([h], Reply.handled (IManagerForApplication.run h request))
  | none => ([], Reply.unimplemented)

/-! ## Scenarios -/

/-- A username buffer of the store: the name, zero-padded to the 0x20 bytes of the field. -/
def username_buffer (name : String) : List Nat :=
  (ascii name ++ List.replicate 0x20 0).take 0x20

/-- The user id of the first scenario. -/
def U1 : UUID := ⟨1⟩

/-- The user id of the second scenario. -/
def U2 : UUID := ⟨2⟩

/-- A store with the single user U1 named "bob". -/
def store_bob : ProfileManager :=
  ⟨[{ user_uuid := U1, username := username_buffer "bob", creation_time := 0, data := [] }]⟩

/-- A store with the two users U1 named "bob" and U2 named "amy". -/
def store_bob_amy : ProfileManager :=
  ⟨[{ user_uuid := U1, username := username_buffer "bob", creation_time := 0, data := [] },
    { user_uuid := U2, username := username_buffer "amy", creation_time := 7, data := [1, 2] }]⟩

/-- A configuration directory. -/
def config_root : List Nat := ascii "/cfg/"

/-- A file system in which no file can be opened. -/
def no_files : FileSystem := fun _ => none

/-- A file system whose only file is the image of "bob", with the given bytes. -/
def only_bob_jpg (bytes : List Nat) : FileSystem :=
  fun path => if path = GetImagePath config_root (ascii "bob") then some bytes else none

/-- A file system whose only file is the image of "amy", with the given bytes. -/
def only_amy_jpg (bytes : List Nat) : FileSystem :=
  fun path => if path = GetImagePath config_root (ascii "amy") then some bytes else none

/-! ## Arithmetic and file-handle lemmas -/

theorem to_u32_of_lt {v : Nat} (h : v < 2 ^ 32) : to_u32 v = v :=
  Nat.mod_eq_of_lt h

theorem min_u32_le_cap (a : Nat) : min_u32 a MAX_JPEG_IMAGE_SIZE ≤ MAX_JPEG_IMAGE_SIZE := by
  have h : to_u32 MAX_JPEG_IMAGE_SIZE = MAX_JPEG_IMAGE_SIZE := by decide
  unfold min_u32
  rw [h]
  exact Nat.min_le_right _ _

theorem min_u32_lt_two_pow (a : Nat) : min_u32 a MAX_JPEG_IMAGE_SIZE < 2 ^ 32 := by
  have h := min_u32_le_cap a
  have hc : MAX_JPEG_IMAGE_SIZE < 2 ^ 32 := by decide
  omega

theorem min_u32_of_lt {a : Nat} (h : a < 2 ^ 32) :
    min_u32 a MAX_JPEG_IMAGE_SIZE = min a MAX_JPEG_IMAGE_SIZE := by
  have hc : to_u32 MAX_JPEG_IMAGE_SIZE = MAX_JPEG_IMAGE_SIZE := by decide
  unfold min_u32
  rw [hc, to_u32_of_lt h]

theorem ReadBytes_length (f : IOFile) (data : List Nat) :
    (f.ReadBytes data data.length).2.length = data.length := by
  unfold IOFile.ReadBytes
  cases f.m_file with
  | none => rfl
  | some bytes =>
    simp only [List.length_append, List.length_take, List.length_drop]
    omega

theorem ReadBytes_fresh (bytes data : List Nat) :
    ((IOFile.mk (some bytes) 0).ReadBytes data data.length).2
      = bytes.take data.length ++ data.drop (bytes.take data.length).length := by
  simp [IOFile.ReadBytes]

/-! ## The store lookup -/

theorem GetProfileBase_eq_none {pm : ProfileManager} {u : UUID}
    (h : pm.UserExists u = false) : pm.GetProfileBase u = none := by
  unfold ProfileManager.UserExists at h
  unfold ProfileManager.GetProfileBase
  rw [Option.map_eq_none', List.find?_eq_none]
  intro p hp
  have := (List.any_eq_false.mp h) p hp
  simpa using this

theorem GetProfileBaseAndData_eq_none {pm : ProfileManager} {u : UUID} (max_data : Nat)
    (h : pm.UserExists u = false) : pm.GetProfileBaseAndData max_data u = none := by
  unfold ProfileManager.UserExists at h
  unfold ProfileManager.GetProfileBaseAndData
  rw [Option.map_eq_none', List.find?_eq_none]
  intro p hp
  have := (List.any_eq_false.mp h) p hp
  simpa using this

theorem GetProfileBase_of_exists {pm : ProfileManager} {u : UUID}
    (h : pm.UserExists u = true) :
    ∃ pb, pm.GetProfileBase u = some pb ∧ pb.user_uuid = u := by
  unfold ProfileManager.UserExists at h
  unfold ProfileManager.GetProfileBase
  cases hf : pm.profiles.find? (fun p => p.user_uuid == u) with
  | none =>
    rw [List.find?_eq_none] at hf
    obtain ⟨p, hp, hpu⟩ := List.any_eq_true.mp h
    exact absurd hpu (hf p hp)
  | some p =>
    have hp := List.find?_some hf
    exact ⟨_, rfl, by simpa using hp⟩

/-! ## The image handlers -/

theorem LoadImage_of_null (s : IProfile) (h : s.image = none) :
    s.LoadImage = (s, { normal_params_size := 3
                        params := [Param.result RESULT_SUCCESS, Param.u32 107]
                        buffer := some backup_jpeg }) := by
  unfold IProfile.LoadImage
  rw [h]
  rfl

theorem GetImageSize_of_null (s : IProfile) (h : s.image = none) :
    s.GetImageSize = { normal_params_size := 3
                       params := [Param.result RESULT_SUCCESS, Param.u32 107]
                       buffer := none } := by
  unfold IProfile.GetImageSize
  rw [h]
  rfl

theorem GetImageSize_of_handle (u : UUID) (f : IOFile) :
    (IProfile.mk u (some f)).GetImageSize
      = { normal_params_size := 3
          params := [Param.result RESULT_SUCCESS,
                     Param.u32 (min_u32 f.GetSize MAX_JPEG_IMAGE_SIZE)]
          buffer := none } := by
  simp only [IProfile.GetImageSize, to_u32_of_lt (min_u32_lt_two_pow _)]

theorem LoadImage_of_handle (u : UUID) (f : IOFile) :
    ∃ payload,
      payload.length = min_u32 f.GetSize MAX_JPEG_IMAGE_SIZE ∧
      payload = (f.ReadBytes (List.replicate (min_u32 f.GetSize MAX_JPEG_IMAGE_SIZE) 0)
                  (min_u32 f.GetSize MAX_JPEG_IMAGE_SIZE)).2 ∧
      (IProfile.mk u (some f)).LoadImage.2
        = { normal_params_size := 3
            params := [Param.result RESULT_SUCCESS,
                       Param.u32 (min_u32 f.GetSize MAX_JPEG_IMAGE_SIZE)]
            buffer := some payload } := by
  have hlen := ReadBytes_length f (List.replicate (min_u32 f.GetSize MAX_JPEG_IMAGE_SIZE) 0)
  rw [List.length_replicate] at hlen
  refine ⟨_, hlen, rfl, ?_⟩
  simp only [IProfile.LoadImage, List.length_replicate, hlen,
    to_u32_of_lt (min_u32_lt_two_pow _)]
  rw [List.take_of_length_le (Nat.le_of_eq hlen)]

theorem call_image_of_null (s : IProfile) (h : s.image = none) (c : IProfile.Handler)
    (pm : ProfileManager) (max_data : Nat) : (s.call c pm max_data).1.image = none := by
  cases c with
  | Get => exact h
  | GetBase => exact h
  | GetImageSize => exact h
  | LoadImage =>
    show s.LoadImage.1.image = none
    rw [LoadImage_of_null s h]
    exact h

theorem calls_image_of_null (max_data : Nat) (l : List (IProfile.Handler × ProfileManager)) :
    ∀ s : IProfile, s.image = none → (s.calls max_data l).image = none := by
  induction l with
  | nil => intro s h; exact h
  | cons c rest ih =>
    intro s h
    obtain ⟨c, pm⟩ := c
    exact ih _ (call_image_of_null s h c pm max_data)

theorem LoadImage_of_failed_open (pm : ProfileManager) (u : UUID) (pb : ProfileBase)
    (config_dir : List Nat) (fs : FileSystem)
    (hres : pm.GetProfileBase u = some pb)
    (hopen : fs (GetImagePath config_dir
      (StringFromFixedZeroTerminatedBuffer pb.username pb.username.length)) = none) :
    (GetProfile u pm config_dir fs).2 = { user_id := u, image := some ⟨none, 0⟩ } ∧
    (GetProfile u pm config_dir fs).2.LoadImage.2
      = { normal_params_size := 3
          params := [Param.result RESULT_SUCCESS, Param.u32 0]
          buffer := some [] } ∧
    (GetProfile u pm config_dir fs).2.GetImageSize
      = { normal_params_size := 3
          params := [Param.result RESULT_SUCCESS, Param.u32 0]
          buffer := none } := by
  have hs : (GetProfile u pm config_dir fs).2 = { user_id := u, image := some ⟨none, 0⟩ } := by
    simp only [GetProfile, IProfile.construct, hres, IOFile.construct, hopen]
  rw [hs]
  exact ⟨rfl, rfl, rfl⟩

theorem GetImageSize_of_small_file (u : UUID) (bytes : List Nat) (pos : Nat)
    (h : bytes.length < 2 ^ 32) :
    (IProfile.mk u (some ⟨some bytes, pos⟩)).GetImageSize
      = { normal_params_size := 3
          params := [Param.result RESULT_SUCCESS,
                     Param.u32 (min bytes.length MAX_JPEG_IMAGE_SIZE)]
          buffer := none } := by
  rw [GetImageSize_of_handle]
  show _ = Response.mk 3 [Param.result RESULT_SUCCESS,
    Param.u32 (min bytes.length MAX_JPEG_IMAGE_SIZE)] none
  rw [← min_u32_of_lt h]
  rfl

/-! ## The claims -/

/-- C1 (defect of the code). The store holds U1 with the username "bob" and no file can be
opened. The constructor still stores a handle object in `image` (line 55), so the null test
of lines 114 and 133 does not hold: `LoadImage` answers with a count of 0 and an empty
payload and `GetImageSize` with 0, not with the 107 bytes of the built-in image. -/
theorem GetProfile_unopenable_image_skips_backup :
    store_bob.GetProfileBase U1 ≠ none ∧
    no_files (GetImagePath config_root (ascii "bob")) = none ∧
    (GetProfile U1 store_bob config_root no_files).2.image = some ⟨none, 0⟩ ∧
    (GetProfile U1 store_bob config_root no_files).2.LoadImage.2
      = { normal_params_size := 3
          params := [Param.result RESULT_SUCCESS, Param.u32 0]
          buffer := some [] } ∧
    (GetProfile U1 store_bob config_root no_files).2.GetImageSize
      = { normal_params_size := 3
          params := [Param.result RESULT_SUCCESS, Param.u32 0]
          buffer := none } ∧
    (GetProfile U1 store_bob config_root no_files).2.LoadImage.2
      ≠ { normal_params_size := 3
          params := [Param.result RESULT_SUCCESS, Param.u32 107]
          buffer := some backup_jpeg } := by
  decide

/-- C2 (defect of the code). For an open handle on a file of 2^32 bytes `GetImageSize`
reports 0: `std::min<u32>` converts the 64-bit size to `u32` before it takes the minimum,
while the minimum of the actual size and the cap is 0x20000. -/
theorem GetImageSize_wraps_at_two_pow_32 :
    (IProfile.mk U1 (some ⟨some (List.replicate 4294967296 0), 0⟩)).GetImageSize
      = { normal_params_size := 3
          params := [Param.result RESULT_SUCCESS, Param.u32 0]
          buffer := none } ∧
    min (List.replicate 4294967296 0).length MAX_JPEG_IMAGE_SIZE = 0x20000 := by
  have hsize : (IOFile.mk (some (List.replicate 4294967296 0)) 0).GetSize = 4294967296 :=
    List.length_replicate _ _
  have hmin : min_u32 4294967296 MAX_JPEG_IMAGE_SIZE = 0 := by decide
  refine ⟨?_, ?_⟩
  · rw [GetImageSize_of_handle, hsize, hmin]
  · rw [List.length_replicate]
    decide

/-- C3 (defect of the code). The image of "bob" holds the two bytes ff d8. The first
`LoadImage` on the session returns them; the handle is then at the end of the file, and
the second `LoadImage` returns two zero bytes, not the bytes of the file from offset 0. -/
theorem LoadImage_second_call_not_from_offset_zero :
    (GetProfile U1 store_bob config_root (only_bob_jpg [0xff, 0xd8])).2.image
      = some ⟨some [0xff, 0xd8], 0⟩ ∧
    (GetProfile U1 store_bob config_root (only_bob_jpg [0xff, 0xd8])).2.LoadImage.2
      = { normal_params_size := 3
          params := [Param.result RESULT_SUCCESS, Param.u32 2]
          buffer := some [0xff, 0xd8] } ∧
    (GetProfile U1 store_bob config_root (only_bob_jpg [0xff, 0xd8])).2.LoadImage.1.LoadImage.2
      = { normal_params_size := 3
          params := [Param.result RESULT_SUCCESS, Param.u32 2]
          buffer := some [0, 0] } ∧
    [0, 0] ≠ List.take (min 2 MAX_JPEG_IMAGE_SIZE) [0xff, 0xd8] := by
  decide

/-- C4. In every session state the count pushed by `LoadImage` and the length of the
payload it writes equal the size pushed by `GetImageSize` in that state. -/
theorem LoadImage_count_eq_GetImageSize (s : IProfile) :
    ∃ n payload,
      s.GetImageSize.params = [Param.result RESULT_SUCCESS, Param.u32 n] ∧
      s.LoadImage.2.params = [Param.result RESULT_SUCCESS, Param.u32 n] ∧
      s.LoadImage.2.buffer = some payload ∧
      payload.length = n := by
  obtain ⟨u, image⟩ := s
  cases image with
  | none => exact ⟨107, backup_jpeg, rfl, rfl, rfl, rfl⟩
  | some f =>
    obtain ⟨payload, hlen, _, hload⟩ := LoadImage_of_handle u f
    refine ⟨min_u32 f.GetSize MAX_JPEG_IMAGE_SIZE, payload, ?_, ?_, ?_, hlen⟩
    · rw [GetImageSize_of_handle]
    · rw [hload]
    · rw [hload]

/-- C5. In every session state the size pushed by `GetImageSize` and the payload written by
`LoadImage` are at most 0x20000 bytes; and for a store that resolves the user and an image
file of 500000 bytes at the derived path, `LoadImage` on the session of `GetProfile` returns
exactly the first 131072 bytes of the file and `GetImageSize` returns 131072. -/
theorem image_payload_capped (s : IProfile) (pm : ProfileManager) (u : UUID) (pb : ProfileBase)
    (config_dir : List Nat) (fs : FileSystem) (bytes : List Nat)
    (hres : pm.GetProfileBase u = some pb)
    (hfile : fs (GetImagePath config_dir
      (StringFromFixedZeroTerminatedBuffer pb.username pb.username.length)) = some bytes)
    (hsize : bytes.length = 500000) :
    (∃ n payload,
      s.GetImageSize.params = [Param.result RESULT_SUCCESS, Param.u32 n] ∧
      s.LoadImage.2.buffer = some payload ∧
      n ≤ 0x20000 ∧ payload.length ≤ 0x20000) ∧
    (∃ payload,
      (GetProfile u pm config_dir fs).2.LoadImage.2
        = { normal_params_size := 3
            params := [Param.result RESULT_SUCCESS, Param.u32 131072]
            buffer := some payload } ∧
      payload.length = 131072 ∧
      payload = bytes.take 131072 ∧
      (GetProfile u pm config_dir fs).2.GetImageSize
        = { normal_params_size := 3
            params := [Param.result RESULT_SUCCESS, Param.u32 131072]
            buffer := none }) := by
  constructor
  · obtain ⟨u0, image⟩ := s
    cases image with
    | none => exact ⟨107, backup_jpeg, rfl, rfl, by decide, by decide⟩
    | some f =>
      obtain ⟨payload, hlen, _, hload⟩ := LoadImage_of_handle u0 f
      have hcap := min_u32_le_cap f.GetSize
      have hc : MAX_JPEG_IMAGE_SIZE = 0x20000 := rfl
      refine ⟨min_u32 f.GetSize MAX_JPEG_IMAGE_SIZE, payload, ?_, ?_, ?_, ?_⟩
      · rw [GetImageSize_of_handle]
      · rw [hload]
      · omega
      · omega
  · have hs : (GetProfile u pm config_dir fs).2
        = { user_id := u, image := some ⟨some bytes, 0⟩ } := by
      simp only [GetProfile, IProfile.construct, hres, IOFile.construct, hfile]
    have hget : (IOFile.mk (some bytes) 0).GetSize = 500000 := hsize
    have hmin : min_u32 500000 MAX_JPEG_IMAGE_SIZE = 131072 := by decide
    obtain ⟨payload, hlen, hpay, hload⟩ := LoadImage_of_handle u ⟨some bytes, 0⟩
    rw [hget, hmin] at hlen hpay hload
    refine ⟨payload, ?_, hlen, ?_, ?_⟩
    · rw [hs, hload]
    · have hfresh := ReadBytes_fresh bytes (List.replicate 131072 0)
      rw [List.length_replicate] at hfresh
      rw [hpay, hfresh]
      have htake : (List.take 131072 bytes).length = 131072 := by
        rw [List.length_take, hsize]
        decide
      rw [htake, List.drop_eq_nil_of_le (by rw [List.length_replicate])]
      exact List.append_nil _
    · rw [hs, GetImageSize_of_handle, hget, hmin]

/-- C5, at the store with the users "bob" and "amy" and an image of "amy" of 500000 bytes. -/
theorem image_payload_capped_witness :
    (store_bob_amy.GetProfileBase U2 = some ⟨U2, 7, username_buffer "amy"⟩ ∧
     only_amy_jpg (List.replicate 500000 0) (GetImagePath config_root
       (StringFromFixedZeroTerminatedBuffer (username_buffer "amy")
         (username_buffer "amy").length)) = some (List.replicate 500000 0) ∧
     (List.replicate 500000 0).length = 500000) ∧
    ((∃ n payload,
      (IProfile.mk U1 none).GetImageSize.params = [Param.result RESULT_SUCCESS, Param.u32 n] ∧
      (IProfile.mk U1 none).LoadImage.2.buffer = some payload ∧
      n ≤ 0x20000 ∧ payload.length ≤ 0x20000) ∧
    (∃ payload,
      (GetProfile U2 store_bob_amy config_root (only_amy_jpg (List.replicate 500000 0))).2.LoadImage.2
        = { normal_params_size := 3
            params := [Param.result RESULT_SUCCESS, Param.u32 131072]
            buffer := some payload } ∧
      payload.length = 131072 ∧
      payload = (List.replicate 500000 0).take 131072 ∧
      (GetProfile U2 store_bob_amy config_root (only_amy_jpg (List.replicate 500000 0))).2.GetImageSize
        = { normal_params_size := 3
            params := [Param.result RESULT_SUCCESS, Param.u32 131072]
            buffer := none })) :=
  have h1 : store_bob_amy.GetProfileBase U2 = some ⟨U2, 7, username_buffer "amy"⟩ := by decide
  have h2 : only_amy_jpg (List.replicate 500000 0) (GetImagePath config_root
       (StringFromFixedZeroTerminatedBuffer (username_buffer "amy")
         (username_buffer "amy").length)) = some (List.replicate 500000 0) :=
    if_pos (by decide)
  have h3 : (List.replicate 500000 0).length = 500000 := List.length_replicate _ _
  ⟨⟨h1, h2, h3⟩,
   image_payload_capped (IProfile.mk U1 none) store_bob_amy U2 ⟨U2, 7, username_buffer "amy"⟩
     config_root (only_amy_jpg (List.replicate 500000 0)) (List.replicate 500000 0) h1 h2 h3⟩

/-- C6. For a user id that the store does not hold, `Get` and `GetBase` on a session for
that id answer with the single status `ResultCode(-1)`, which is not status-success: no
`ProfileBase` is pushed and no buffer is written. -/
theorem Get_and_GetBase_fail_for_absent_user (pm : ProfileManager) (u : UUID)
    (image : Option IOFile) (max_data : Nat) (h : pm.UserExists u = false) :
    (IProfile.mk u image).Get pm max_data
      = { normal_params_size := 2
          params := [Param.result (ResultCode.of_int (-1))]
          buffer := none } ∧
    (IProfile.mk u image).GetBase pm
      = { normal_params_size := 2
          params := [Param.result (ResultCode.of_int (-1))]
          buffer := none } ∧
    ((IProfile.mk u image).Get pm max_data).status ≠ some RESULT_SUCCESS ∧
    ((IProfile.mk u image).GetBase pm).status ≠ some RESULT_SUCCESS ∧
    (∀ pb, Param.profile_base pb ∉ ((IProfile.mk u image).Get pm max_data).params) ∧
    (∀ pb, Param.profile_base pb ∉ ((IProfile.mk u image).GetBase pm).params) ∧
    ((IProfile.mk u image).Get pm max_data).buffer = none ∧
    ((IProfile.mk u image).GetBase pm).buffer = none := by
  have hget : (IProfile.mk u image).Get pm max_data
      = { normal_params_size := 2
          params := [Param.result (ResultCode.of_int (-1))]
          buffer := none } := by
    simp only [IProfile.Get, GetProfileBaseAndData_eq_none max_data h]
  have hbase : (IProfile.mk u image).GetBase pm
      = { normal_params_size := 2
          params := [Param.result (ResultCode.of_int (-1))]
          buffer := none } := by
    simp only [IProfile.GetBase, GetProfileBase_eq_none h]
  rw [hget, hbase]
  refine ⟨rfl, rfl, by decide, by decide, ?_, ?_, rfl, rfl⟩
  · intro pb hmem
    simp at hmem
  · intro pb hmem
    simp at hmem

/-- C6, at the store that holds only U1, for the user id U2. -/
theorem Get_and_GetBase_fail_for_absent_user_witness :
    store_bob.UserExists U2 = false ∧
    ((IProfile.mk U2 none).Get store_bob 128
      = { normal_params_size := 2
          params := [Param.result (ResultCode.of_int (-1))]
          buffer := none } ∧
    (IProfile.mk U2 none).GetBase store_bob
      = { normal_params_size := 2
          params := [Param.result (ResultCode.of_int (-1))]
          buffer := none } ∧
    ((IProfile.mk U2 none).Get store_bob 128).status ≠ some RESULT_SUCCESS ∧
    ((IProfile.mk U2 none).GetBase store_bob).status ≠ some RESULT_SUCCESS ∧
    (∀ pb, Param.profile_base pb ∉ ((IProfile.mk U2 none).Get store_bob 128).params) ∧
    (∀ pb, Param.profile_base pb ∉ ((IProfile.mk U2 none).GetBase store_bob).params) ∧
    ((IProfile.mk U2 none).Get store_bob 128).buffer = none ∧
    ((IProfile.mk U2 none).GetBase store_bob).buffer = none) :=
  ⟨by decide, Get_and_GetBase_fail_for_absent_user store_bob U2 none 128 (by decide)⟩

/-- C7. For a user id that the store holds, `GetBase` on a session for that id answers
with status-success and a `ProfileBase` whose user id is that id. -/
theorem GetBase_returns_profile_of_user (pm : ProfileManager) (u : UUID)
    (image : Option IOFile) (h : pm.UserExists u = true) :
    ∃ pb,
      (IProfile.mk u image).GetBase pm
        = { normal_params_size := 16
            params := [Param.result RESULT_SUCCESS, Param.profile_base pb]
            buffer := none } ∧
      pb.user_uuid = u := by
  obtain ⟨pb, hpb, hid⟩ := GetProfileBase_of_exists h
  refine ⟨pb, ?_, hid⟩
  simp only [IProfile.GetBase, hpb]

/-- C7, at the store with the users "bob" and "amy", for the user id U2. -/
theorem GetBase_returns_profile_of_user_witness :
    store_bob_amy.UserExists U2 = true ∧
    ∃ pb,
      (IProfile.mk U2 none).GetBase store_bob_amy
        = { normal_params_size := 16
            params := [Param.result RESULT_SUCCESS, Param.profile_base pb]
            buffer := none } ∧
      pb.user_uuid = U2 :=
  ⟨by decide, GetBase_returns_profile_of_user store_bob_amy U2 none (by decide)⟩

/-- C8. The ids that the table of `IManagerForApplication` lists with no handler are 2, 3,
130, 150 and 160; dispatching any id listed with no handler, with any request content,
invokes no handler and yields the one "unimplemented" reply, which is not a success. -/
theorem InvokeRequest_unbound_is_unimplemented (id : Nat) (request : List Nat)
    (h : ∃ f ∈ IManagerForApplication.functions,
      f.expected_header = id ∧ f.handler_callback = none) :
    (IManagerForApplication.functions.filter (fun f => f.handler_callback.isNone)).map
      (fun f => f.expected_header) = [2, 3, 130, 150, 160] ∧
    id ∈ [2, 3, 130, 150, 160] ∧
    IManagerForApplication.InvokeRequest id request = ([], Reply.unimplemented) ∧
    Reply.unimplemented.is_success = false := by
  obtain ⟨f, hf, hid, hcb⟩ := h
  refine ⟨by decide, ?_⟩
  simp only [IManagerForApplication.functions, List.mem_cons, List.mem_singleton,
    List.not_mem_nil, or_false] at hf
  rcases hf with rfl | rfl | rfl | rfl | rfl | rfl | rfl
  · simp at hcb
  · simp at hcb
  all_goals
    subst hid
    exact ⟨by decide, rfl, rfl⟩

/-- C8, at the command id 130 with a request of three bytes. -/
theorem InvokeRequest_unbound_is_unimplemented_witness :
    (∃ f ∈ IManagerForApplication.functions,
      f.expected_header = 130 ∧ f.handler_callback = none) ∧
    ((IManagerForApplication.functions.filter (fun f => f.handler_callback.isNone)).map
      (fun f => f.expected_header) = [2, 3, 130, 150, 160] ∧
    130 ∈ [2, 3, 130, 150, 160] ∧
    IManagerForApplication.InvokeRequest 130 [1, 2, 3] = ([], Reply.unimplemented) ∧
    Reply.unimplemented.is_success = false) :=
  have h : ∃ f ∈ IManagerForApplication.functions,
      f.expected_header = 130 ∧ f.handler_callback = none :=
    ⟨⟨130, none, "GetNintendoAccountUserResourceCacheForApplication"⟩, by decide, rfl, rfl⟩
  ⟨h, InvokeRequest_unbound_is_unimplemented 130 [1, 2, 3] h⟩

/-- C9. When the store does not resolve the user id at construction, the session holds no
image handle, and it holds none after any sequence of calls of its handlers, whatever the
store holds at each call; in each such state `LoadImage` answers with status-success, the
count 107 and the 107 bytes of the built-in image, and `GetImageSize` with status-success
and 107. -/
theorem unresolved_session_always_serves_backup (pm : ProfileManager) (u : UUID)
    (config_dir : List Nat) (fs : FileSystem) (max_data : Nat)
    (calls : List (IProfile.Handler × ProfileManager))
    (h : pm.GetProfileBase u = none) :
    (((GetProfile u pm config_dir fs).2).calls max_data calls).image = none ∧
    (((GetProfile u pm config_dir fs).2).calls max_data calls).LoadImage
      = (((GetProfile u pm config_dir fs).2).calls max_data calls,
         { normal_params_size := 3
           params := [Param.result RESULT_SUCCESS, Param.u32 107]
           buffer := some backup_jpeg }) ∧
    backup_jpeg.length = 107 ∧
    (((GetProfile u pm config_dir fs).2).calls max_data calls).GetImageSize
      = { normal_params_size := 3
          params := [Param.result RESULT_SUCCESS, Param.u32 107]
          buffer := none } := by
  have h0 : (GetProfile u pm config_dir fs).2.image = none := by
    simp only [GetProfile, IProfile.construct, h]
  have hn := calls_image_of_null max_data calls _ h0
  exact ⟨hn, LoadImage_of_null _ hn, rfl, GetImageSize_of_null _ hn⟩

/-- C9, at the store that holds only U1, for the user id U2, with the image of "bob" on
disk and the calls LoadImage, GetBase, GetImageSize, Get, LoadImage. -/
theorem unresolved_session_always_serves_backup_witness :
    store_bob.GetProfileBase U2 = none ∧
    ((((GetProfile U2 store_bob config_root (only_bob_jpg [1, 2, 3])).2).calls 128
        [(IProfile.Handler.LoadImage, store_bob), (IProfile.Handler.GetBase, store_bob_amy),
         (IProfile.Handler.GetImageSize, store_bob_amy), (IProfile.Handler.Get, store_bob_amy),
         (IProfile.Handler.LoadImage, store_bob_amy)]).image = none ∧
    (((GetProfile U2 store_bob config_root (only_bob_jpg [1, 2, 3])).2).calls 128
        [(IProfile.Handler.LoadImage, store_bob), (IProfile.Handler.GetBase, store_bob_amy),
         (IProfile.Handler.GetImageSize, store_bob_amy), (IProfile.Handler.Get, store_bob_amy),
         (IProfile.Handler.LoadImage, store_bob_amy)]).LoadImage
      = (((GetProfile U2 store_bob config_root (only_bob_jpg [1, 2, 3])).2).calls 128
        [(IProfile.Handler.LoadImage, store_bob), (IProfile.Handler.GetBase, store_bob_amy),
         (IProfile.Handler.GetImageSize, store_bob_amy), (IProfile.Handler.Get, store_bob_amy),
         (IProfile.Handler.LoadImage, store_bob_amy)],
         { normal_params_size := 3
           params := [Param.result RESULT_SUCCESS, Param.u32 107]
           buffer := some backup_jpeg }) ∧
    backup_jpeg.length = 107 ∧
    (((GetProfile U2 store_bob config_root (only_bob_jpg [1, 2, 3])).2).calls 128
        [(IProfile.Handler.LoadImage, store_bob), (IProfile.Handler.GetBase, store_bob_amy),
         (IProfile.Handler.GetImageSize, store_bob_amy), (IProfile.Handler.Get, store_bob_amy),
         (IProfile.Handler.LoadImage, store_bob_amy)]).GetImageSize
      = { normal_params_size := 3
          params := [Param.result RESULT_SUCCESS, Param.u32 107]
          buffer := none }) :=
  ⟨by decide,
   unresolved_session_always_serves_backup store_bob U2 config_root (only_bob_jpg [1, 2, 3]) 128
     [(IProfile.Handler.LoadImage, store_bob), (IProfile.Handler.GetBase, store_bob_amy),
      (IProfile.Handler.GetImageSize, store_bob_amy), (IProfile.Handler.Get, store_bob_amy),
      (IProfile.Handler.LoadImage, store_bob_amy)] (by decide)⟩

/-- C10. Whatever the request holds, `CheckAvailability` answers with status-success and
the boolean false, and `GetAccountId` with status-success and the 64-bit value 1; neither
handler has another branch. -/
theorem CheckAvailability_and_GetAccountId_fixed (request : List Nat) :
    IManagerForApplication.CheckAvailability request
      = { normal_params_size := 3
          params := [Param.result RESULT_SUCCESS, Param.boolean false]
          buffer := none } ∧
    IManagerForApplication.GetAccountId request
      = { normal_params_size := 4
          params := [Param.result RESULT_SUCCESS, Param.u64 1]
          buffer := none } :=
  ⟨rfl, rfl⟩

end Service.Account
